import Mathlib

/-!
Shallow embedding of the challenge-response authentication core of the
`authweb3` Django app (`src/authweb3/views.py`): the `get_nonce` view
(challenge issuance) and the `verify_signature` view (signature
verification).  The identity store (Django `User`/`UserProfile` rows keyed
by lowercase `username`) is embedded as an association list from address
to nonce; the random source `secrets.token_hex(16)` is embedded as a hex
rendering of 16 caller-supplied bytes; the external recovery primitive
`w3.eth.account.recover_message` is a function parameter returning either
a recovered address or an exception message.  An uncaught Python exception
(e.g. `json.loads` on a malformed body) is embedded as `Except.error`.
-/

namespace AuthWeb3

/-- Embedding of Python's `str.lower()` on one character (ASCII case map,
the fragment exercised by hexadecimal addresses). -/
def lowerChar (c : Char) : Char :=
  if 65 ≤ c.toNat ∧ c.toNat ≤ 90 then Char.ofNat (c.toNat + 32) else c

/-- Embedding of Python's `str.lower()`. -/
def lower (s : String) : String := ⟨s.data.map lowerChar⟩

/-- Hex digit characters, as produced by `secrets.token_hex` (lowercase). -/
def hexDigit (n : Nat) : Char :=
  if n < 10 then Char.ofNat (48 + n) else Char.ofNat (87 + n)

/-- Render a byte list as lowercase hex, two digits per byte. -/
def bytesToHex : List (Fin 256) → List Char
  | [] => []
  | b :: bs => hexDigit (b.val / 16) :: hexDigit (b.val % 16) :: bytesToHex bs

/-- Embedding of `secrets.token_hex(16)`: the 16 random bytes drawn by the
call are the argument; the result is their 32-character hex rendering. -/
def token_hex16 (rb : Fin 16 → Fin 256) : String :=
  ⟨bytesToHex (List.ofFn rb)⟩

/-- Checks that a character is a lowercase hexadecimal digit, the alphabet
`secrets.token_hex` draws from. -/
def hexLower (c : Char) : Bool :=
  (('0' ≤ c && c ≤ '9') || ('a' ≤ c && c ≤ 'f'))

/-- The identity store: one record per row, `username ↦ profile.nonce`. -/
abbrev Store := List (String × String)

/-- Embedding of `User.objects.get(username = addr)` plus the profile
read: first record with the given address. -/
def lookupNonce (store : Store) (addr : String) : Option String :=
  store.lookup addr

/-- Embedding of `User.objects.get_or_create(username = addr)` followed
by `profile.nonce = n; profile.save()`: update the record in place when
the username exists, otherwise insert a fresh row. -/
def setNonce (store : Store) (addr n : String) : Store :=
  if (store.lookup addr).isSome then
    store.map (fun p => if p.1 = addr then (p.1, n) else p)
  else
    store ++ [(addr, n)]

/-- Number of identity records stored for a given address. -/
def recordCount (store : Store) (addr : String) : Nat :=
  (store.filter (fun p => p.1 = addr)).length

/-- The parsed request body.  `fields` is a successfully parsed JSON
object with optional string fields `address` and `signature` (a JSON
`null` or an absent key both surface as `none`, matching
`data.get(...) or ""`); `malformed` is any body on which `json.loads` or
the subsequent attribute accesses raise. -/
inductive Body
  | malformed (exc : String)
  | fields (address signature : Option String)

/-- The `JsonResponse` shapes `get_nonce` can build. -/
inductive NonceResponse
  | postRequired                -- {"error": "POST required"}, 405
  | missingAddress              -- {"error": "Missing address"}, 400
  | ok (nonce : String)         -- {"nonce": nonce}, 200
  deriving DecidableEq

/-- The `JsonResponse` shapes `verify_signature` can build. -/
inductive VerifyResponse
  | postRequired                    -- {"error": "POST required"}, 405
  | missingFields                   -- {"success": false, "error": "Missing address/signature"}, 400
  | userNotFound                    -- {"success": false, "error": "User not found"}, 404
  | recoverFailed (msg : String)    -- {"success": false, "error": "Recover failed: ..."}, 400
  | invalidSignature                -- {"success": false, "error": "Invalid signature"}, 401
  | ok (address : String)           -- {"success": true, "address": address}, 200
  deriving DecidableEq

/-- HTTP status code attached to each `get_nonce` response. -/
def NonceResponse.status : NonceResponse → Nat
  | .postRequired => 405
  | .missingAddress => 400
  | .ok _ => 200

/-- HTTP status code attached to each `verify_signature` response. -/
def VerifyResponse.status : VerifyResponse → Nat
  | .postRequired => 405
  | .missingFields => 400
  | .userNotFound => 404
  | .recoverFailed _ => 400
  | .invalidSignature => 401
  | .ok _ => 200

/-- Embedding of the `get_nonce` view.  Returns the response (or the
uncaught exception), and the store after the call. -/
def get_nonce (method : String) (body : Body) (rb : Fin 16 → Fin 256)
    (store : Store) : Except String NonceResponse × Store :=
  if method ≠ "POST" then (.ok .postRequired, store)
  else
    match body with
    | .malformed exc => (.error exc, store)
    | .fields addr _ =>
      let address := lower (addr.getD "")
      if address = "" then (.ok .missingAddress, store)
      else
        let nonce := token_hex16 rb
        (.ok (.ok nonce), setNonce store address nonce)

/-- Outcome of a `verify_signature` call: the response (or uncaught
exception), the store after the call, and the username passed to Django's
`login` when a session was established. -/
structure VerifyOutcome where
  response : Except String VerifyResponse
  store : Store
  sessionLogin : Option String

/-- Embedding of the `verify_signature` view.  `recover` embeds
`w3.eth.account.recover_message` over the signable built from the message
text: `.ok a` is the recovered address, `.error e` is the exception text
the library raised (caught by the view). -/
def verify_signature (method : String) (body : Body)
    (recover : String → String → Except String String)
    (rb : Fin 16 → Fin 256) (store : Store) : VerifyOutcome :=
  if method ≠ "POST" then ⟨.ok .postRequired, store, none⟩
  else
    match body with
    | .malformed exc => ⟨.error exc, store, none⟩
    | .fields addr sig =>
      let address := lower (addr.getD "")
      let signature := sig.getD ""
      if address = "" ∨ signature = "" then ⟨.ok .missingFields, store, none⟩
      else
        match lookupNonce store address with
        | none => ⟨.ok .userNotFound, store, none⟩
        | some nonce =>
          let message_text := "Login nonce: " ++ nonce
          match recover message_text signature with
          | .error e => ⟨.ok (.recoverFailed ("Recover failed: " ++ e)), store, none⟩
          | .ok r =>
            let recovered := lower r
            if recovered = address then
              ⟨.ok (.ok address), setNonce store address (token_hex16 rb), some address⟩
            else
              ⟨.ok .invalidSignature, store, none⟩

/-! ### Basic facts about the embedded primitives -/

theorem toNat_ofNat_valid {n : Nat} (h : n.isValidChar) : (Char.ofNat n).toNat = n := by
  simp only [Char.ofNat, h, dif_pos, Char.ofNatAux, Char.toNat, UInt32.toNat,
    BitVec.toNat_ofNatLt]

theorem lowerChar_idem (c : Char) : lowerChar (lowerChar c) = lowerChar c := by
  unfold lowerChar
  by_cases h : 65 ≤ c.toNat ∧ c.toNat ≤ 90
  · rw [if_pos h]
    have hv : (c.toNat + 32).isValidChar := Or.inl (by omega)
    rw [toNat_ofNat_valid hv]
    rw [if_neg (by omega)]
  · rw [if_neg h, if_neg h]

theorem lower_idem (s : String) : lower (lower s) = lower s := by
  unfold lower
  rw [List.map_map, show lowerChar ∘ lowerChar = lowerChar from funext lowerChar_idem]

theorem lower_eq_empty_iff (s : String) : lower s = "" ↔ s = "" := by
  unfold lower
  constructor
  · intro h
    have hd : s.data.map lowerChar = [] := congrArg String.data h
    cases s with
    | mk l => cases l with
      | nil => rfl
      | cons c t => simp at hd
  · intro h; subst h; rfl

theorem lookup_map_update (t : Store) (a n : String)
    (h : (t.lookup a).isSome) :
    (t.map (fun p => if p.1 = a then (p.1, n) else p)).lookup a = some n := by
  induction t with
  | nil => simp at h
  | cons p t ih =>
    obtain ⟨k, v⟩ := p
    by_cases hk : k = a
    · subst hk
      simp [List.lookup_cons]
    · have hab : (a == k) = false := beq_eq_false_iff_ne.mpr (Ne.symm hk)
      simp only [List.map_cons] at h ⊢
      rw [if_neg hk, List.lookup_cons, hab]
      rw [List.lookup_cons, hab] at h
      exact ih h

theorem lookupNonce_setNonce_self (store : Store) (a n : String) :
    lookupNonce (setNonce store a n) a = some n := by
  unfold setNonce lookupNonce
  by_cases h : (store.lookup a).isSome
  · rw [if_pos h]
    exact lookup_map_update store a n h
  · rw [if_neg h]
    rw [List.lookup_append]
    have hnone : store.lookup a = none := by
      cases he : store.lookup a with
      | none => rfl
      | some v => rw [he] at h; simp at h
    simp [hnone]

theorem recordCount_lookup_none (store : Store) (a : String)
    (h : store.lookup a = none) : recordCount store a = 0 := by
  unfold recordCount
  rw [List.lookup_eq_none_iff] at h
  rw [List.length_eq_zero]
  rw [List.filter_eq_nil_iff]
  intro p hp
  have hne := h p hp
  simp at hne ⊢
  exact fun e => hne e.symm

theorem recordCount_setNonce (store : Store) (a n : String)
    (h : recordCount store a ≤ 1) :
    recordCount (setNonce store a n) a = 1 := by
  unfold setNonce
  by_cases hs : (store.lookup a).isSome
  · rw [if_pos hs]
    have hcount : recordCount (store.map (fun p => if p.1 = a then (p.1, n) else p)) a
        = recordCount store a := by
      unfold recordCount
      rw [List.filter_map]
      rw [List.length_map]
      congr 1
      apply List.filter_congr
      intro p hp
      by_cases hk : p.1 = a <;> simp [hk]
    rw [hcount]
    have hge : 1 ≤ recordCount store a := by
      rw [List.lookup_isSome_iff] at hs
      obtain ⟨p, hp, hpk⟩ := hs
      unfold recordCount
      have hmem : p ∈ store.filter (fun p => p.1 = a) := by
        rw [List.mem_filter]
        refine ⟨hp, ?_⟩
        simp at hpk ⊢
        exact hpk.symm
      exact List.length_pos.mpr (fun he => by rw [he] at hmem; exact List.not_mem_nil p hmem)
    omega
  · rw [if_neg hs]
    have hnone : store.lookup a = none := by
      cases he : store.lookup a with
      | none => rfl
      | some v => rw [he] at hs; simp at hs
    unfold recordCount
    rw [List.filter_append, List.length_append]
    have h0 : recordCount store a = 0 := recordCount_lookup_none store a hnone
    unfold recordCount at h0
    rw [h0]
    simp

/-! ### Unfolding equations for the two views on a `POST` with parsed body -/

theorem get_nonce_post_fields (addr sig : Option String) (rb : Fin 16 → Fin 256)
    (store : Store) :
    get_nonce "POST" (.fields addr sig) rb store =
      if lower (addr.getD "") = "" then (Except.ok NonceResponse.missingAddress, store)
      else (Except.ok (NonceResponse.ok (token_hex16 rb)),
            setNonce store (lower (addr.getD "")) (token_hex16 rb)) := rfl

theorem verify_post_fields (addr sig : Option String)
    (recover : String → String → Except String String)
    (rb : Fin 16 → Fin 256) (store : Store) :
    verify_signature "POST" (.fields addr sig) recover rb store =
      if lower (addr.getD "") = "" ∨ sig.getD "" = "" then
        ⟨Except.ok VerifyResponse.missingFields, store, none⟩
      else
        match lookupNonce store (lower (addr.getD "")) with
        | none => ⟨Except.ok VerifyResponse.userNotFound, store, none⟩
        | some nonce =>
          match recover ("Login nonce: " ++ nonce) (sig.getD "") with
          | Except.error e =>
              ⟨Except.ok (VerifyResponse.recoverFailed ("Recover failed: " ++ e)), store, none⟩
          | Except.ok r =>
              if lower r = lower (addr.getD "") then
                ⟨Except.ok (VerifyResponse.ok (lower (addr.getD ""))),
                  setNonce store (lower (addr.getD "")) (token_hex16 rb),
                  some (lower (addr.getD ""))⟩
              else ⟨Except.ok VerifyResponse.invalidSignature, store, none⟩ := rfl

/-- Characterization of the success path of `verify_signature`: matching
recovered address grants, rotates the nonce and logs the user in. -/
theorem verify_success_eq (addr sig : String)
    (recover : String → String → Except String String)
    (rb : Fin 16 → Fin 256) (store : Store) (N R : String)
    (haddr : addr ≠ "") (hsig : sig ≠ "")
    (hN : lookupNonce store (lower addr) = some N)
    (hrec : recover ("Login nonce: " ++ N) sig = .ok R)
    (hmatch : lower R = lower addr) :
    verify_signature "POST" (.fields (some addr) (some sig)) recover rb store =
      ⟨.ok (.ok (lower addr)), setNonce store (lower addr) (token_hex16 rb),
        some (lower addr)⟩ := by
  rw [verify_post_fields]
  simp only [Option.getD_some]
  rw [if_neg (by
    push_neg
    exact ⟨fun he => haddr ((lower_eq_empty_iff addr).mp he), hsig⟩)]
  rw [hN]
  simp only [hrec]
  rw [if_pos hmatch]

/-! ### Facts about the generated nonce token -/

theorem bytesToHex_length (bs : List (Fin 256)) :
    (bytesToHex bs).length = 2 * bs.length := by
  induction bs with
  | nil => rfl
  | cons b t ih =>
    simp only [bytesToHex, List.length_cons, ih]
    omega

theorem hexDigit_hexLower : ∀ n < 16, hexLower (hexDigit n) = true := by decide

theorem bytesToHex_all_hex (bs : List (Fin 256)) :
    (bytesToHex bs).all hexLower = true := by
  induction bs with
  | nil => rfl
  | cons b t ih =>
    simp only [bytesToHex, List.all_cons, ih, Bool.and_true]
    have h1 : b.val / 16 < 16 := by
      have hb := b.isLt
      omega
    have h2 : b.val % 16 < 16 := Nat.mod_lt _ (by omega)
    rw [hexDigit_hexLower _ h1, hexDigit_hexLower _ h2]
    rfl

theorem token_hex16_length (rb : Fin 16 → Fin 256) :
    (token_hex16 rb).length = 32 := by
  show (bytesToHex (List.ofFn rb)).length = 32
  rw [bytesToHex_length, List.length_ofFn]

theorem token_hex16_all_hex (rb : Fin 16 → Fin 256) :
    (token_hex16 rb).data.all hexLower = true := by
  show (bytesToHex (List.ofFn rb)).all hexLower = true
  exact bytesToHex_all_hex _

/-! ### Claims -/

/-- C1: if `issue` previously stored nonce `N` for address `A` and
`verify(A, sig)` is called with a signature the recovery primitive
resolves to `A` over the canonical message for `N`, the call grants
(success response echoing the address), rotates the stored nonce to the
freshly drawn value, different from `N`, and signals session
establishment for the identity. -/
theorem verify_roundtrip (addr sig : String)
    (recover : String → String → Except String String)
    (rb : Fin 16 → Fin 256) (store : Store) (N R : String)
    (haddr : addr ≠ "") (hsig : sig ≠ "")
    (hN : lookupNonce store (lower addr) = some N)
    (hrec : recover ("Login nonce: " ++ N) sig = .ok R)
    (hmatch : lower R = lower addr)
    (hfresh : token_hex16 rb ≠ N) :
    (verify_signature "POST" (.fields (some addr) (some sig)) recover rb store).response
        = Except.ok (VerifyResponse.ok (lower addr))
    ∧ (verify_signature "POST" (.fields (some addr) (some sig)) recover rb store).sessionLogin
        = some (lower addr)
    ∧ lookupNonce
        (verify_signature "POST" (.fields (some addr) (some sig)) recover rb store).store
        (lower addr) = some (token_hex16 rb)
    ∧ token_hex16 rb ≠ N := by
  rw [verify_success_eq addr sig recover rb store N R haddr hsig hN hrec hmatch]
  exact ⟨rfl, rfl, lookupNonce_setNonce_self store (lower addr) (token_hex16 rb), hfresh⟩

/-- C1 witness: a concrete round trip on address `0xAB` with stored nonce
`n1` grants, establishes a session and stores the fresh nonce. -/
theorem verify_roundtrip_witness :
    (verify_signature "POST" (.fields (some "0xAB") (some "sig"))
        (fun _ _ => Except.ok "0xAB") (fun _ => (0 : Fin 256)) [("0xab", "n1")]).response
        = Except.ok (VerifyResponse.ok "0xab")
    ∧ (verify_signature "POST" (.fields (some "0xAB") (some "sig"))
        (fun _ _ => Except.ok "0xAB") (fun _ => (0 : Fin 256)) [("0xab", "n1")]).sessionLogin
        = some "0xab"
    ∧ lookupNonce
        (verify_signature "POST" (.fields (some "0xAB") (some "sig"))
          (fun _ _ => Except.ok "0xAB") (fun _ => (0 : Fin 256)) [("0xab", "n1")]).store
        "0xab" = some "00000000000000000000000000000000"
    ∧ "00000000000000000000000000000000" ≠ "n1" :=
  verify_roundtrip "0xAB" "sig" (fun _ _ => Except.ok "0xAB") (fun _ => (0 : Fin 256))
    [("0xab", "n1")] "n1" "0xAB" (by decide) (by decide) rfl rfl rfl (by decide)

/-- C2: when recovery succeeds but the recovered address differs from the
normalized claimed address, verify denies with the invalid-signature
response and the store, hence the stored nonce, is left unchanged. -/
theorem verify_mismatch (addr sig : String)
    (recover : String → String → Except String String)
    (rb : Fin 16 → Fin 256) (store : Store) (N R : String)
    (haddr : addr ≠ "") (hsig : sig ≠ "")
    (hN : lookupNonce store (lower addr) = some N)
    (hrec : recover ("Login nonce: " ++ N) sig = .ok R)
    (hmm : lower R ≠ lower addr) :
    verify_signature "POST" (.fields (some addr) (some sig)) recover rb store
      = ⟨Except.ok VerifyResponse.invalidSignature, store, none⟩
    ∧ lookupNonce store (lower addr) = some N := by
  refine ⟨?_, hN⟩
  rw [verify_post_fields]
  simp only [Option.getD_some]
  rw [if_neg (by
    push_neg
    exact ⟨fun he => haddr ((lower_eq_empty_iff addr).mp he), hsig⟩)]
  rw [hN]
  simp only [hrec]
  rw [if_neg hmm]

/-- C2 witness: a signature recovering to `0xCD` against claim `0xAB` is
denied and the store keeps nonce `n1`. -/
theorem verify_mismatch_witness :
    verify_signature "POST" (.fields (some "0xAB") (some "sig"))
        (fun _ _ => Except.ok "0xCD") (fun _ => (0 : Fin 256)) [("0xab", "n1")]
      = ⟨Except.ok VerifyResponse.invalidSignature, [("0xab", "n1")], none⟩
    ∧ lookupNonce [("0xab", "n1")] "0xab" = some "n1" :=
  verify_mismatch "0xAB" "sig" (fun _ _ => Except.ok "0xCD") (fun _ => (0 : Fin 256))
    [("0xab", "n1")] "n1" "0xCD" (by decide) (by decide) rfl rfl (by decide)

/-- C3 counterexample: the code does not trim, so the whitespace-only
address consisting of one space is accepted by `get_nonce`: it creates a
record keyed by the space and returns a nonce instead of the
missing-address error. -/
theorem issue_whitespace_accepted :
    get_nonce "POST" (Body.fields (some " ") none) (fun _ => (0 : Fin 256)) []
      = (Except.ok (NonceResponse.ok "00000000000000000000000000000000"),
         [(" ", "00000000000000000000000000000000")])
    ∧ NonceResponse.ok "00000000000000000000000000000000" ≠ NonceResponse.missingAddress :=
  ⟨rfl, by decide⟩

/-- C3 amended: `get_nonce` returns the missing-address error exactly
when the address field is missing or the empty string (no trimming:
whitespace-only addresses are accepted), and `verify_signature` returns
the missing-fields error exactly when the address or the signature field
is missing or empty. -/
theorem invalid_input_iff (addr sig : Option String)
    (recover : String → String → Except String String)
    (rb : Fin 16 → Fin 256) (store : Store) :
    ((get_nonce "POST" (.fields addr sig) rb store).1
        = Except.ok NonceResponse.missingAddress ↔ addr.getD "" = "")
    ∧ ((verify_signature "POST" (.fields addr sig) recover rb store).response
        = Except.ok VerifyResponse.missingFields
        ↔ (addr.getD "" = "" ∨ sig.getD "" = "")) := by
  constructor
  · rw [get_nonce_post_fields]
    split
    · rename_i hc
      rw [lower_eq_empty_iff] at hc
      simp [hc]
    · rename_i hc
      rw [lower_eq_empty_iff] at hc
      simp [hc]
  · rw [verify_post_fields]
    split
    · rename_i hc
      rw [lower_eq_empty_iff] at hc
      simp [hc]
    · rename_i hc
      rw [lower_eq_empty_iff] at hc
      split
      · simp [hc]
      · split
        · simp [hc]
        · split
          · simp [hc]
          · simp [hc]

/-- C4: verify for an address whose normalized form has no identity
record returns the user-not-found response and leaves the store
unchanged, whatever (non-empty) signature is supplied. -/
theorem verify_unknown_identity (addr sig : String)
    (recover : String → String → Except String String)
    (rb : Fin 16 → Fin 256) (store : Store)
    (haddr : addr ≠ "") (hsig : sig ≠ "")
    (h : lookupNonce store (lower addr) = none) :
    verify_signature "POST" (.fields (some addr) (some sig)) recover rb store
      = ⟨Except.ok VerifyResponse.userNotFound, store, none⟩ := by
  rw [verify_post_fields]
  simp only [Option.getD_some]
  rw [if_neg (by
    push_neg
    exact ⟨fun he => haddr ((lower_eq_empty_iff addr).mp he), hsig⟩)]
  rw [h]

/-- C4 witness: verifying against the empty store returns the
user-not-found response. -/
theorem verify_unknown_identity_witness :
    verify_signature "POST" (.fields (some "0xAB") (some "sig"))
        (fun _ _ => Except.ok "0xAB") (fun _ => (0 : Fin 256)) []
      = ⟨Except.ok VerifyResponse.userNotFound, [], none⟩ :=
  verify_unknown_identity "0xAB" "sig" (fun _ _ => Except.ok "0xAB")
    (fun _ => (0 : Fin 256)) [] (by decide) (by decide) rfl

/-- C5: when the recovery primitive itself raises, verify returns the
recover-failed response with the library failure reason embedded in the
message, a response distinct from the invalid-signature mismatch, and the
store is left unchanged. -/
theorem verify_recovery_failure (addr sig : String)
    (recover : String → String → Except String String)
    (rb : Fin 16 → Fin 256) (store : Store) (N e : String)
    (haddr : addr ≠ "") (hsig : sig ≠ "")
    (hN : lookupNonce store (lower addr) = some N)
    (hrec : recover ("Login nonce: " ++ N) sig = .error e) :
    verify_signature "POST" (.fields (some addr) (some sig)) recover rb store
      = ⟨Except.ok (VerifyResponse.recoverFailed ("Recover failed: " ++ e)), store, none⟩
    ∧ VerifyResponse.recoverFailed ("Recover failed: " ++ e)
        ≠ VerifyResponse.invalidSignature := by
  refine ⟨?_, by intro hc; cases hc⟩
  rw [verify_post_fields]
  simp only [Option.getD_some]
  rw [if_neg (by
    push_neg
    exact ⟨fun he => haddr ((lower_eq_empty_iff addr).mp he), hsig⟩)]
  rw [hN]
  simp only [hrec]

/-- C5 witness: a recovery exception is surfaced as the recover-failed
response with the library reason, and the store keeps nonce `n1`. -/
theorem verify_recovery_failure_witness :
    verify_signature "POST" (.fields (some "0xAB") (some "zz"))
        (fun _ _ => Except.error "Signature must be 65 bytes")
        (fun _ => (0 : Fin 256)) [("0xab", "n1")]
      = ⟨Except.ok (VerifyResponse.recoverFailed
            ("Recover failed: " ++ "Signature must be 65 bytes")), [("0xab", "n1")], none⟩
    ∧ VerifyResponse.recoverFailed ("Recover failed: " ++ "Signature must be 65 bytes")
        ≠ VerifyResponse.invalidSignature :=
  verify_recovery_failure "0xAB" "zz" (fun _ _ => Except.error "Signature must be 65 bytes")
    (fun _ => (0 : Fin 256)) [("0xab", "n1")] "n1" "Signature must be 65 bytes"
    (by decide) (by decide) rfl rfl

/-- C6: `get_nonce` behaves identically on an address and on its
lowercased form, for any method, body and store: the address is
normalized before any lookup or storage, so both calls touch the same
identity record. -/
theorem issue_case_insensitive (m addr : String) (sig : Option String)
    (rb : Fin 16 → Fin 256) (store : Store) :
    get_nonce m (.fields (some addr) sig) rb store
      = get_nonce m (.fields (some (lower addr)) sig) rb store := by
  unfold get_nonce
  by_cases hm : m ≠ "POST"
  · rw [if_pos hm, if_pos hm]
  · rw [if_neg hm, if_neg hm]
    simp only [Option.getD_some, lower_idem]

/-- C7: issuing twice for the same address leaves exactly one identity
record for it (given the unique-username invariant on the incoming
store), and its nonce is the one drawn by the second call. -/
theorem issue_idempotent (addr : String) (sig1 sig2 : Option String)
    (rb1 rb2 : Fin 16 → Fin 256) (store : Store)
    (haddr : addr ≠ "")
    (hcount : recordCount store (lower addr) ≤ 1) :
    recordCount
        ((get_nonce "POST" (.fields (some addr) sig2) rb2
          (get_nonce "POST" (.fields (some addr) sig1) rb1 store).2).2)
        (lower addr) = 1
    ∧ lookupNonce
        ((get_nonce "POST" (.fields (some addr) sig2) rb2
          (get_nonce "POST" (.fields (some addr) sig1) rb1 store).2).2)
        (lower addr) = some (token_hex16 rb2) := by
  have hne : ¬ lower (((some addr).getD "") : String) = "" := by
    simp only [Option.getD_some]
    exact fun he => haddr ((lower_eq_empty_iff addr).mp he)
  rw [get_nonce_post_fields, if_neg hne, get_nonce_post_fields, if_neg hne]
  simp only [Option.getD_some]
  constructor
  · exact recordCount_setNonce _ _ _ (le_of_eq (recordCount_setNonce _ _ _ hcount))
  · exact lookupNonce_setNonce_self _ _ _

/-- C7 witness: two issuances for `0xAB` on the empty store leave one
record keyed `0xab` holding the second nonce. -/
theorem issue_idempotent_witness :
    recordCount
        ((get_nonce "POST" (.fields (some "0xAB") none) (fun _ => (1 : Fin 256))
          (get_nonce "POST" (.fields (some "0xAB") none) (fun _ => (0 : Fin 256)) []).2).2)
        "0xab" = 1
    ∧ lookupNonce
        ((get_nonce "POST" (.fields (some "0xAB") none) (fun _ => (1 : Fin 256))
          (get_nonce "POST" (.fields (some "0xAB") none) (fun _ => (0 : Fin 256)) []).2).2)
        "0xab" = some (token_hex16 (fun _ => (1 : Fin 256))) :=
  issue_idempotent "0xAB" none none (fun _ => (0 : Fin 256)) (fun _ => (1 : Fin 256)) []
    (by decide) (by decide)

/-- C8 counterexample: a body on which `json.loads` raises propagates the
exception out of both views instead of producing an error response. -/
theorem malformed_body_raises :
    (verify_signature "POST" (Body.malformed "Expecting value: line 1 column 1 (char 0)")
        (fun _ _ => Except.ok "0xab") (fun _ => (0 : Fin 256)) []).response
      = Except.error "Expecting value: line 1 column 1 (char 0)"
    ∧ (get_nonce "POST" (Body.malformed "Expecting value: line 1 column 1 (char 0)")
        (fun _ => (0 : Fin 256)) []).1
      = Except.error "Expecting value: line 1 column 1 (char 0)" :=
  ⟨rfl, rfl⟩

/-- C8 amended: on every well-formed body both views return a response
rather than raising, for any method; any verify call that does not grant
leaves the store unchanged; and even on a malformed body (where the
parser exception escapes the view) neither view mutates the store, so no
stored nonce is ever corrupted. -/
theorem no_crash_wellformed (m : String) (addr sig : Option String)
    (recover : String → String → Except String String)
    (rb : Fin 16 → Fin 256) (store : Store) (e : String) :
    (∃ r, (get_nonce m (.fields addr sig) rb store).1 = Except.ok r)
    ∧ (∃ r, (verify_signature m (.fields addr sig) recover rb store).response = Except.ok r)
    ∧ ((verify_signature m (.fields addr sig) recover rb store).store = store
        ∨ (verify_signature m (.fields addr sig) recover rb store).response
            = Except.ok (VerifyResponse.ok (lower (addr.getD ""))))
    ∧ (get_nonce m (.malformed e) rb store).2 = store
    ∧ (verify_signature m (.malformed e) recover rb store).store = store := by
  by_cases hm : m = "POST"
  · subst hm
    refine ⟨?_, ?_, ?_, rfl, rfl⟩
    · rw [get_nonce_post_fields]
      split
      · exact ⟨_, rfl⟩
      · exact ⟨_, rfl⟩
    · rw [verify_post_fields]
      split
      · exact ⟨_, rfl⟩
      · split
        · exact ⟨_, rfl⟩
        · split
          · exact ⟨_, rfl⟩
          · split
            · exact ⟨_, rfl⟩
            · exact ⟨_, rfl⟩
    · rw [verify_post_fields]
      split
      · exact Or.inl rfl
      · split
        · exact Or.inl rfl
        · split
          · exact Or.inl rfl
          · split
            · exact Or.inr rfl
            · exact Or.inl rfl
  · have hm2 : m ≠ "POST" := hm
    refine ⟨?_, ?_, ?_, ?_, ?_⟩
    · unfold get_nonce
      rw [if_pos hm2]
      exact ⟨_, rfl⟩
    · unfold verify_signature
      rw [if_pos hm2]
      exact ⟨_, rfl⟩
    · unfold verify_signature
      rw [if_pos hm2]
      exact Or.inl rfl
    · unfold get_nonce
      rw [if_pos hm2]
    · unfold verify_signature
      rw [if_pos hm2]

/-- C9: the generated nonce is always the hex rendering of the 16 drawn
random bytes, 32 lowercase hexadecimal characters; `get_nonce` returns
exactly that token, and any store mutation performed by verify writes
exactly that token as the rotated nonce. -/
theorem nonce_32_hex (rb : Fin 16 → Fin 256) (addr : String) (sig sig2 : Option String)
    (recover : String → String → Except String String) (store : Store)
    (h : addr ≠ "") :
    (token_hex16 rb).length = 32
    ∧ (token_hex16 rb).data.all hexLower = true
    ∧ (get_nonce "POST" (.fields (some addr) sig) rb store).1
        = Except.ok (NonceResponse.ok (token_hex16 rb))
    ∧ ((verify_signature "POST" (.fields (some addr) sig2) recover rb store).store = store
        ∨ (verify_signature "POST" (.fields (some addr) sig2) recover rb store).store
            = setNonce store (lower addr) (token_hex16 rb)) := by
  refine ⟨token_hex16_length rb, token_hex16_all_hex rb, ?_, ?_⟩
  · rw [get_nonce_post_fields]
    rw [if_neg (by
      simp only [Option.getD_some]
      exact fun he => h ((lower_eq_empty_iff addr).mp he))]
  · rw [verify_post_fields]
    split
    · exact Or.inl rfl
    · split
      · exact Or.inl rfl
      · split
        · exact Or.inl rfl
        · split
          · exact Or.inr rfl
          · exact Or.inl rfl

/-- C9 witness: with all-zero random bytes the issued nonce is the
32-character all-zero hex string and verify either keeps or properly
rotates the store. -/
theorem nonce_32_hex_witness :
    (token_hex16 (fun _ => (0 : Fin 256))).length = 32
    ∧ (token_hex16 (fun _ => (0 : Fin 256))).data.all hexLower = true
    ∧ (get_nonce "POST" (.fields (some "0xAB") none) (fun _ => (0 : Fin 256)) []).1
        = Except.ok (NonceResponse.ok (token_hex16 (fun _ => (0 : Fin 256))))
    ∧ ((verify_signature "POST" (.fields (some "0xAB") (some "sig"))
          (fun _ _ => Except.ok "0xAB") (fun _ => (0 : Fin 256)) []).store = []
        ∨ (verify_signature "POST" (.fields (some "0xAB") (some "sig"))
            (fun _ _ => Except.ok "0xAB") (fun _ => (0 : Fin 256)) []).store
            = setNonce [] "0xab" (token_hex16 (fun _ => (0 : Fin 256)))) :=
  nonce_32_hex (fun _ => (0 : Fin 256)) "0xAB" none (some "sig")
    (fun _ _ => Except.ok "0xAB") [] (by decide)

/-- C10: on a successful verification the address echoed in the success
response is the lowercase-normalized form of the claimed address, not the
casing the caller supplied. -/
theorem verify_echoes_lowercase (addr sig : String)
    (recover : String → String → Except String String)
    (rb : Fin 16 → Fin 256) (store : Store) (N R : String)
    (haddr : addr ≠ "") (hsig : sig ≠ "")
    (hN : lookupNonce store (lower addr) = some N)
    (hrec : recover ("Login nonce: " ++ N) sig = .ok R)
    (hmatch : lower R = lower addr) :
    (verify_signature "POST" (.fields (some addr) (some sig)) recover rb store).response
      = Except.ok (VerifyResponse.ok (lower addr)) := by
  rw [verify_success_eq addr sig recover rb store N R haddr hsig hN hrec hmatch]

/-- C10 witness: the mixed-case claim `0xAbC` is echoed back as `0xabc`
on success. -/
theorem verify_echoes_lowercase_witness :
    (verify_signature "POST" (.fields (some "0xAbC") (some "sig"))
        (fun _ _ => Except.ok "0xABC") (fun _ => (0 : Fin 256)) [("0xabc", "n1")]).response
      = Except.ok (VerifyResponse.ok "0xabc") :=
  verify_echoes_lowercase "0xAbC" "sig" (fun _ _ => Except.ok "0xABC")
    (fun _ => (0 : Fin 256)) [("0xabc", "n1")] "n1" "0xABC"
    (by decide) (by decide) rfl rfl rfl

end AuthWeb3
